import Mathlib

/-!
Verification development for the `pubmed_pharma_papers` package.

Shallow embedding of the code in `pubmed_pharma_papers/models.py`,
`pubmed_pharma_papers/author_classifier.py` and
`pubmed_pharma_papers/pubmed_client.py`.

Conventions of the embedding:
* Python strings are Lean `String`s; character-level processing works on
  `String.data : List Char` (inputs of interest are ASCII).
* Python `str.lower`, `str.title`, `str.strip` and the regular expressions
  appearing in the source are embedded as executable functions on `List Char`;
  for each regular expression only the semantics actually used by the code
  (existence of a match / the leftmost, lazily shortest capture group) is
  embedded, which is spelled out at each definition.
* Network I/O (`urllib`) and XML parsing (`xml.etree.ElementTree`) are the
  boundary of the embedding: they are abstracted as function parameters
  (`net`, `parseXml`, `parsePapers`), and the client functions are defined
  over those parameters exactly following the source control flow.  Functions
  that issue requests are instrumented to also return the list of requests
  issued, so that claims about which requests occur are statable.
* Python `int` fields that the code only ever sets from `len(...)` or `0`
  are `Nat`; `total_results` (set from `int(text)`) is `Int`.
-/

/-! ## Data model (`models.py`) -/

/-- Author record, `models.py` lines 10-26.  `company_affiliations` defaults to
the empty list (the `__post_init__` normalisation of the `None` default). -/
structure Author where
  first_name : Option String
  last_name : String
  initials : Option String
  affiliation : Option String
  email : Option String
  is_corresponding : Bool := false
  is_non_academic : Bool := false
  company_affiliations : List String := []
  deriving Repr, DecidableEq

/-- Journal record, `models.py` lines 29-37. -/
structure Journal where
  title : String
  issn : Option String
  volume : Option String
  issue : Option String
  pages : Option String
  deriving Repr, DecidableEq

/-- Value of a Python `datetime.date`; `date(y, m, d)` construction validity is
modelled by `mkDate` below. -/
structure PyDate where
  year : Int
  month : Int
  day : Int
  deriving Repr, DecidableEq

/-- Paper record, `models.py` lines 40-51 (the helper methods are not needed
by the claims). -/
structure Paper where
  pubmed_id : String
  title : String
  publication_date : Option PyDate
  authors : List Author
  journal : Journal
  abstract : Option String
  doi : Option String
  pmc_id : Option String
  deriving Repr, DecidableEq

/-- API response record, `models.py` lines 72-80. -/
structure PubMedAPIResponse where
  success : Bool
  papers : List Paper
  error_message : Option String := none
  total_count : Nat := 0
  retrieved_count : Nat := 0
  deriving Repr, DecidableEq

/-- Search result record, `models.py` lines 83-91. -/
structure SearchResult where
  query : String
  total_results : Int
  pubmed_ids : List String
  web_env : Option String := none
  query_key : Option String := none
  deriving Repr, DecidableEq

/-! ## Character-level helpers (Python string semantics, ASCII fragment) -/

/-- Whitespace characters recognised by Python `\s` / `str.strip()` (ASCII). -/
def isSpaceChar (c : Char) : Bool :=
  c = ' ' || c = '\t' || c = '\n' || c = '\r' || c = '\x0b' || c = '\x0c'

/-- Word characters of Python `\w` (ASCII fragment). -/
def isWordChar (c : Char) : Bool :=
  c.isAlphanum || c = '_'

/-- Characters excluded by the character class `[^,;.]` used in the company
name extraction regexes. -/
def isSepChar (c : Char) : Bool :=
  c = ',' || c = ';' || c = '.'

/-- Python `needle in hay` substring test. -/
def containsSub (hay needle : List Char) : Bool :=
  (List.range (hay.length + 1)).any (fun i => needle.isPrefixOf (hay.drop i))

/-- Python `str.lower()` (ASCII). -/
def pythonLower (s : String) : String :=
  ⟨s.data.map Char.toLower⟩

/-- Worker for `pythonTitle`: the boolean tracks whether the previous
character was cased (alphabetic in the ASCII fragment). -/
def titleGo : Bool → List Char → List Char
  | _, [] => []
  | prevCased, c :: cs =>
    (if c.isAlpha then (if prevCased then c.toLower else c.toUpper) else c)
      :: titleGo c.isAlpha cs

/-- Python `str.title()` (ASCII): each character beginning a run of cased
characters is uppercased, the rest of the run lowercased. -/
def pythonTitle (s : String) : String :=
  ⟨titleGo false s.data⟩

/-- Python `str.strip()` with no argument: removes leading and trailing
whitespace. -/
def stripChars (s : List Char) : List Char :=
  ((s.dropWhile isSpaceChar).reverse.dropWhile isSpaceChar).reverse

/-- Effect of `re.sub(r'^\W+|\W+$', '', s)`: removes the maximal leading and
trailing runs of non-word characters. -/
def trimNonWord (s : List Char) : List Char :=
  (((s.dropWhile (fun c => !isWordChar c)).reverse.dropWhile
      (fun c => !isWordChar c))).reverse

/-! ## Affiliation classifier (`author_classifier.py`) -/

namespace AuthorClassifier

/-- Keyword set `self.academic_keywords`, `author_classifier.py` lines 16-26.
The Python value is a `set`; only membership and any-element tests are
performed on it, so the listing order (taken from the source literal) is
irrelevant. -/
def academic_keywords : List String :=
  ["university", "university of", "college", "institute", "institut",
   "school", "medical school", "hospital", "medical center", "clinic",
   "research center", "research centre", "laboratory", "lab", "department",
   "faculty", "academy", "academia", "national institutes", "nih",
   "national institute", "center for", "centre for", "medical college",
   "graduate school", "postgraduate", "doctoral", "phd", "research institute",
   "government", "federal", "public health", "ministry", "department of health",
   "national health", "veterans affairs", "va medical", "cancer center",
   "memorial", "children's hospital", "foundation", "nonprofit", "non-profit"]

/-- Keyword set `self.pharma_biotech_keywords`, lines 28-36; again only
any-element membership tests are performed. -/
def pharma_biotech_keywords : List String :=
  ["pharmaceutical", "pharmaceuticals", "pharma", "biotech", "biotechnology",
   "biopharmaceutical", "drug", "drugs", "therapeutics", "bioscience",
   "biosciences", "life sciences", "medicine", "medical devices",
   "diagnostics", "genomics", "proteomics", "clinical research",
   "contract research", "cro", "clinical trials", "drug development",
   "vaccine", "vaccines", "biologics", "biosimilar", "biosimilars",
   "medical technology", "medtech", "healthcare", "health care"]

/-- Legal-entity suffix set `self.company_indicators`, lines 38-45.  The
Python `set` iteration order of `_extract_company_name` is unspecified
(hash-dependent); the embedding fixes the order in which the source literal
lists the elements. -/
def company_indicators : List String :=
  ["inc", "inc.", "incorporated", "corp", "corp.", "corporation",
   "ltd", "ltd.", "limited", "llc", "l.l.c.", "company", "co.",
   "plc", "p.l.c.", "gmbh", "ag", "sa", "s.a.", "nv", "b.v.",
   "pty", "pty.", "proprietary", "enterprises", "holdings",
   "international", "global", "worldwide", "group", "solutions",
   "technologies", "systems", "services", "consulting"]

/-- Known company set `self.known_companies`, lines 48-62, in source literal
order (the claims proved below depend only on membership). -/
def known_companies : List String :=
  ["pfizer", "roche", "novartis", "johnson & johnson", "j&j",
   "merck", "bristol myers squibb", "abbvie", "amgen", "gilead",
   "biogen", "genentech", "bayer", "sanofi", "glaxosmithkline",
   "gsk", "astrazeneca", "eli lilly", "takeda", "boehringer ingelheim",
   "vertex", "celgene", "illumina", "thermo fisher", "agilent",
   "waters", "perkinelmer", "danaher", "beckman coulter",
   "bd", "becton dickinson", "abbott", "medtronic", "boston scientific",
   "stryker", "zimmer biomet", "intuitive surgical", "edwards lifesciences",
   "baxter", "fresenius", "hospira", "regeneron", "moderna",
   "biontech", "curevac", "novavax", "ionis", "alnylam",
   "bluebird bio", "spark therapeutics", "kite pharma", "car-t",
   "chimeric antigen receptor", "crispr", "editas", "intellia",
   "sangamo", "precision biosciences", "beam therapeutics"]

/-- Test for `\b` immediately before position `i` of a word character: true
when `i` is the start of the string or the previous character is not a word
character. -/
def wordBoundaryBefore (hay : List Char) (i : Nat) : Bool :=
  i = 0 || !isWordChar (hay.getD (i - 1) ' ')

/-- Test for `\b` at index `j` when the preceding character is a word
character: true at end of string or when `hay[j]` is not a word character. -/
def boundaryAfterIdx (hay : List Char) (j : Nat) : Bool :=
  hay.length ≤ j || !isWordChar (hay.getD j ' ')

/-- Length of the run of whitespace characters starting at index `j`. -/
def spaceRunLen (hay : List Char) (j : Nat) : Nat :=
  ((hay.drop j).takeWhile isSpaceChar).length

/-- Existence of a match of `\b w1 \s+ w2 \b` with `w1` starting at index `i`
(all of the `academic_patterns` of lines 111-120 have this shape, with
alternations for `w1`/`w2`). -/
def matchWordPairAt (hay : List Char) (i : Nat) (w1 w2 : List Char) : Bool :=
  wordBoundaryBefore hay i && w1.isPrefixOf (hay.drop i) &&
    (let j := i + w1.length
     (List.range (spaceRunLen hay j + 1)).any (fun m =>
       decide (1 ≤ m) && w2.isPrefixOf (hay.drop (j + m)) &&
         boundaryAfterIdx hay (j + m + w2.length)))

/-- `re.search` succeeds for the pattern `\b(w1 alts)\s+(w2 alts)\b` iff such
a match exists at some position. -/
def wordPairFound (hay : List Char) (ws1 ws2 : List String) : Bool :=
  (List.range (hay.length + 1)).any (fun i =>
    ws1.any (fun w1 => ws2.any (fun w2 => matchWordPairAt hay i w1.data w2.data)))

/-- The `academic_patterns` regex list of `_is_academic_affiliation`
(lines 111-120), each decomposed into its two alternation groups. -/
def academic_patterns : List (List String × List String) :=
  [(["dept", "department"], ["of"]),
   (["division", "div"], ["of"]),
   (["center", "centre"], ["for"]),
   (["school", "college"], ["of"]),
   (["university"], ["of"]),
   (["research", "medical"], ["center", "centre"]),
   (["teaching", "university"], ["hospital"]),
   (["medical"], ["school"])]

/-- All characters of `hay` with index in `[a, b)` are non-whitespace. -/
def allNonSpaceSeg (hay : List Char) (a b : Nat) : Bool :=
  ((hay.drop a).take (b - a)).all (fun c => !isSpaceChar c)

/-- Existence of a match of `\S+@\S+\.edu` (first alternative of the academic
email regex, line 106): an `@` preceded by a non-space character, followed by
a non-empty run of non-space characters and then the literal `.edu`. -/
def hasEduEmail (hay : List Char) : Bool :=
  (List.range hay.length).any (fun p =>
    hay.getD p ' ' = '@' && decide (1 ≤ p) && !isSpaceChar (hay.getD (p - 1) ' ') &&
      (List.range (hay.length + 1)).any (fun q =>
        decide (p + 2 ≤ q) && ".edu".data.isPrefixOf (hay.drop q) &&
          allNonSpaceSeg hay (p + 1) q))

/-- Existence of a match of `\S+@\S+\.ac\.\w+` (second alternative of the
academic email regex, line 106). -/
def hasAcEmail (hay : List Char) : Bool :=
  (List.range hay.length).any (fun p =>
    hay.getD p ' ' = '@' && decide (1 ≤ p) && !isSpaceChar (hay.getD (p - 1) ' ') &&
      (List.range (hay.length + 1)).any (fun q =>
        decide (p + 2 ≤ q) && ".ac.".data.isPrefixOf (hay.drop q) &&
          allNonSpaceSeg hay (p + 1) q &&
          decide (q + 4 < hay.length) && isWordChar (hay.getD (q + 4) ' ')))

/-- Method `_is_academic_affiliation`, lines 90-126, on the lowercased
affiliation text: keyword containment, academic email match, or any of the
structural patterns. -/
def is_academic_affiliation (aff : List Char) : Bool :=
  academic_keywords.any (fun k => containsSub aff k.data) ||
  hasEduEmail aff || hasAcEmail aff ||
  academic_patterns.any (fun pr => wordPairFound aff pr.1 pr.2)

/-- Method `_has_pharma_biotech_keywords`, lines 153-166. -/
def has_pharma_biotech_keywords (aff : List Char) : Bool :=
  pharma_biotech_keywords.any (fun k => containsSub aff k.data)

/-- Segment `[i, i+k)` exists in `hay` and contains no `,`/`;`/`.` character
(the body of the capture group `([^,;.]+?)`). -/
def sepFreeSeg (hay : List Char) (i k : Nat) : Bool :=
  decide (i + k ≤ hay.length) && ((hay.drop i).take k).all (fun c => !isSepChar c)

/-- `\s+` followed by one of the alternatives `alts`, starting at index `j`:
there is a non-empty whitespace run after which one alternative occurs. -/
def tailIndicatorAt (hay : List Char) (j : Nat) (alts : List (List Char)) : Bool :=
  (List.range (spaceRunLen hay j + 1)).any (fun m =>
    decide (1 ≤ m) && alts.any (fun a => a.isPrefixOf (hay.drop (j + m))))

/-- Capture group returned by `re.search(r'([^,;.]+?)\s+(alts)', hay)`:
the match at the leftmost feasible start index, with the lazily minimal
group length (Python `re` tries start positions left to right and, for the
lazy `+?`, group lengths from short to long). -/
def regexGroupSearch (hay : List Char) (alts : List (List Char)) : Option (List Char) :=
  (List.range hay.length).findSome? (fun i =>
    (List.range hay.length).findSome? (fun km =>
      let k := km + 1
      if sepFreeSeg hay i k && tailIndicatorAt hay (i + k) alts then
        some ((hay.drop i).take k)
      else none))

/-- Cleanup applied to a captured group in `_extract_company_name`:
`.strip()` followed by `re.sub(r'^\W+|\W+$', '', ...)` (lines 185-187). -/
def cleanCompanyName (g : List Char) : List Char :=
  trimNonWord (stripChars g)

/-- Alternation groups of the fallback `patterns` list of
`_extract_company_name` (lines 193-197).  In `inc\.?` etc. the optional dot
cannot affect match existence nor the captured group, so each alternative is
represented by its mandatory literal part. -/
def fallback_patterns : List (List String) :=
  [["inc", "corp", "ltd", "llc", "plc"],
   ["pharmaceutical", "pharma", "biotech", "biotechnology"],
   ["therapeutics", "bioscience", "life sciences"]]

/-- Method `_extract_company_name`, lines 168-207, on the lowercased
affiliation: first the indicator loop (guarded by a containment pre-check;
a cleaned capture is returned only when longer than 3 characters, otherwise
the loop continues), then the fallback pattern loop with the same length
filter. -/
def extract_company_name (aff : List Char) : Option (List Char) :=
  match company_indicators.findSome? (fun ind =>
      if containsSub aff ind.data then
        match regexGroupSearch aff [ind.data] with
        | some g =>
          let c := cleanCompanyName g
          if decide (3 < c.length) then some c else none
        | none => none
      else none) with
  | some c => some c
  | none =>
    fallback_patterns.findSome? (fun alts =>
      match regexGroupSearch aff (alts.map String.data) with
      | some g =>
        let c := cleanCompanyName g
        if decide (3 < c.length) then some c else none
      | none => none)

/-- Method `_extract_company_affiliations`, lines 128-151, on the lowercased
affiliation: known-company substring scan (each hit appended title-cased),
then, if a pharma/biotech keyword occurs, the heuristic name extraction,
whose result is appended title-cased unless already present (compared
lowercased). -/
def extract_company_affiliations (aff : List Char) : List String :=
  let companies :=
    (known_companies.filter (fun c => containsSub aff (pythonLower c).data)).map
      pythonTitle
  if has_pharma_biotech_keywords aff then
    match extract_company_name aff with
    | some nameChars =>
      let nm : String := ⟨nameChars⟩
      if (companies.map pythonLower).contains nm then companies
      else companies ++ [pythonTitle nm]
    | none => companies
  else companies

/-- Method `classify_author`, lines 64-88.  `if not author.affiliation`
returns the author unchanged when the affiliation is `None` or the empty
string (Python falsiness).  Otherwise `is_non_academic` is set to the
negation of the academic test on the lowercased text and, only when
non-academic, `company_affiliations` is overwritten with the extraction
result. -/
def classify_author (a : Author) : Author :=
  match a.affiliation with
  | none => a
  | some s =>
    if s = "" then a
    else
      let low := pythonLower s
      if is_academic_affiliation low.data then
        { a with is_non_academic := false }
      else
        { a with is_non_academic := true,
                 company_affiliations := extract_company_affiliations low.data }

end AuthorClassifier

/-! ## PubMed client (`pubmed_client.py`) -/

namespace PubMedClient

/-- Identification configuration of a `PubMedClient` instance
(`__init__`, lines 22-42; the rate-limit timestamp is timing state outside
the embedding). -/
structure Client where
  email : Option String := none
  api_key : Option String := none
  tool_name : String := "get-papers-list"
  deriving Repr, DecidableEq

/-- An outbound HTTP GET request, represented by its E-utilities endpoint and
its parameter list in source construction order.  `urlencode` percent-encoding
is injective on the parameter list and is omitted. -/
inductive Request where
  | get (endpoint : String) (params : List (String × String))
  deriving Repr, DecidableEq

/-- Optional identification parameters appended by each URL builder
(`if self.email: ... if self.api_key: ...`). -/
def identParams (c : Client) : List (String × String) :=
  (match c.email with | some e => [("email", e)] | none => []) ++
  (match c.api_key with | some k => [("api_key", k)] | none => [])

/-- Method `_build_search_url`, lines 88-114. -/
def build_search_url (c : Client) (query : String) (retmax retstart : Nat) : Request :=
  .get "esearch.fcgi"
    ([("db", "pubmed"), ("term", query), ("retmax", toString retmax),
      ("retstart", toString retstart), ("usehistory", "y"),
      ("tool", c.tool_name)] ++ identParams c)

/-- Method `_build_fetch_url`, lines 116-145. -/
def build_fetch_url (c : Client) (web_env query_key : String)
    (retmax retstart : Nat) : Request :=
  .get "efetch.fcgi"
    ([("db", "pubmed"), ("WebEnv", web_env), ("query_key", query_key),
      ("retmax", toString retmax), ("retstart", toString retstart),
      ("retmode", "xml"), ("tool", c.tool_name)] ++ identParams c)

/-- Method `_build_fetch_url_by_ids`, lines 147-169. -/
def build_fetch_url_by_ids (c : Client) (pubmed_ids : List String) : Request :=
  .get "efetch.fcgi"
    ([("db", "pubmed"), ("id", String.intercalate "," pubmed_ids),
      ("retmode", "xml"), ("tool", c.tool_name)] ++ identParams c)

/-- Retry loop of `_make_request`, lines 67-86, over the remaining attempt
indices.  The per-attempt outcome of `urlopen` is the oracle
`attempt : Nat → Except String String` (error value = the exception text).
Result: the returned/raised outcome, the list of backoff sleeps (`2 ** k`
time units) performed, and the number of attempts made. -/
def makeRequestGo (attempt : Nat → Except String String) (retries : Nat) :
    List Nat → Except String String × List Nat × Nat
  | [] => (.error "Request failed after all retries", [], 0)
  | k :: rest =>
    match attempt k with
    | .ok data => (.ok data, [], 1)
    | .error e =>
      if k = retries - 1 then
        (.error ("Request failed after " ++ toString retries ++ " attempts: " ++ e),
         [], 1)
      else
        let r := makeRequestGo attempt retries rest
        (r.1, 2 ^ k :: r.2.1, r.2.2 + 1)

/-- Method `_make_request`, lines 44-86: `for attempt in range(retries)` with
the retry/backoff logic of `makeRequestGo` (the pre-loop rate-limit sleep is
timing behavior outside the embedding). -/
def make_request (attempt : Nat → Except String String) (retries : Nat) :
    Except String String × List Nat × Nat :=
  makeRequestGo attempt retries (List.range retries)

/-- Python `int(s)` on a string (ASCII fragment: optional surrounding
whitespace, optional sign, non-empty digit run; `None` result models a
raised `ValueError`).  Underscore digit grouping is not used by the inputs
of interest and is omitted. -/
def digitsToNat (l : List Char) : Option Nat :=
  if l ≠ [] ∧ l.all Char.isDigit then
    some (l.foldl (fun n c => n * 10 + (c.toNat - 48)) 0)
  else none

/-- Python `int(s)` returning `none` when `int` would raise `ValueError`. -/
def pyInt (s : String) : Option Int :=
  match stripChars s.data with
  | '+' :: rest => (digitsToNat rest).map Int.ofNat
  | '-' :: rest => (digitsToNat rest).map (fun n => -(n : Int))
  | rest => (digitsToNat rest).map Int.ofNat

/-- Number of days of a Gregorian month, as validated by Python
`datetime.date`. -/
def daysInMonth (y m : Int) : Int :=
  if m = 2 then
    (if y % 4 = 0 ∧ (y % 100 ≠ 0 ∨ y % 400 = 0) then 29 else 28)
  else if m = 4 ∨ m = 6 ∨ m = 9 ∨ m = 11 then 30
  else 31

/-- Python `datetime.date(y, m, d)`: `none` models the `ValueError` raised on
an out-of-range component. -/
def mkDate (y m d : Int) : Option PyDate :=
  if 1 ≤ y ∧ y ≤ 9999 ∧ 1 ≤ m ∧ m ≤ 12 ∧ 1 ≤ d ∧ d ≤ daysInMonth y m then
    some ⟨y, m, d⟩
  else none

/-- Texts of the `Year`/`Month`/`Day` children of a date element (a field is
`none` when the child element is absent; present children are taken with
string text at the XML boundary). -/
structure DateParts where
  year : Option String := none
  month : Option String := none
  day : Option String := none
  deriving Repr, DecidableEq

/-- First present date element in the `DateCompleted`, `DateCreated`,
`PubDate` lookup chain of `_parse_publication_date`, lines 398-403. -/
def firstDateElem (completed created pubdate : Option DateParts) : Option DateParts :=
  match completed with
  | some d => some d
  | none =>
    match created with
    | some d => some d
    | none => pubdate

/-- Method `_parse_publication_date`, lines 395-420.  A failing `int()`
conversion raises `ValueError`, caught by the surrounding handler, giving
`none`; a missing month or day defaults to `1`; a falsy (`0` or missing)
year falls through to `return None`; a `date(...)` construction error is
likewise caught, giving `none`. -/
def parse_publication_date (completed created pubdate : Option DateParts) :
    Option PyDate :=
  match firstDateElem completed created pubdate with
  | none => none
  | some de =>
    let yearR : Except Unit (Option Int) :=
      match de.year with
      | some t => match pyInt t with | some n => .ok (some n) | none => .error ()
      | none => .ok none
    let monthR : Except Unit Int :=
      match de.month with
      | some t => match pyInt t with | some n => .ok n | none => .error ()
      | none => .ok 1
    let dayR : Except Unit Int :=
      match de.day with
      | some t => match pyInt t with | some n => .ok n | none => .error ()
      | none => .ok 1
    match yearR, monthR, dayR with
    | .ok (some y), .ok m, .ok d => if y ≠ 0 then mkDate y m d else none
    | .ok none, .ok _, .ok _ => none
    | _, _, _ => none

/-- Parsed content of the `esearch` XML (`Count`/`Id`/`WebEnv`/`QueryKey`
lookups of lines 192-205); each field holds the element text when the
element is present.  Construction of this value from the response text is
the `xml.etree` boundary, abstracted as the `parseXml` parameter below. -/
structure SearchDoc where
  count : Option String := none
  ids : List String := []
  webEnv : Option String := none
  queryKey : Option String := none
  deriving Repr, DecidableEq

/-- Method `search`, lines 171-225, instrumented with the list of requests
issued.  `net` is the outcome of `_make_request` (error = raised exception
text) and `parseXml` the outcome of `ET.fromstring` plus element lookup.
Any exception in the `try` block — request failure, parse failure, or a
`ValueError` from `int(count_elem.text)` — is caught and converted to the
fail-soft empty `SearchResult` of lines 219-225. -/
def searchRun (c : Client) (net : Request → Except String String)
    (parseXml : String → Except String SearchDoc)
    (query : String) (max_results : Nat) : SearchResult × List Request :=
  let req := build_search_url c query max_results 0
  let failRes : SearchResult :=
    { query := query, total_results := 0, pubmed_ids := [],
      web_env := none, query_key := none }
  match net req with
  | .error _ => (failRes, [req])
  | .ok resp =>
    match parseXml resp with
    | .error _ => (failRes, [req])
    | .ok doc =>
      match doc.count with
      | some t =>
        match pyInt t with
        | none => (failRes, [req])
        | some n =>
          ({ query := query, total_results := n, pubmed_ids := doc.ids,
             web_env := doc.webEnv, query_key := doc.queryKey }, [req])
      | none =>
        ({ query := query, total_results := 0, pubmed_ids := doc.ids,
           web_env := doc.webEnv, query_key := doc.queryKey }, [req])

/-- Python falsiness of an optional string (`not x` for `Optional[str]`):
true for `None` and for the empty string. -/
def optStrFalsy : Option String → Bool
  | none => true
  | some s => s = ""

/-- Batch start offsets `range(0, total, batch_size)` of line 278, for
`batch_size ≥ 1` (`range` raises on a zero step, so `batch_size = 0` never
occurs in a run). -/
def batchStarts (total batch_size : Nat) : List Nat :=
  (List.range ((total + batch_size - 1) / batch_size)).map (· * batch_size)

/-- Outcome of one batch iteration of lines 279-298: the fetch request for
the batch at offset `start` and the papers contributed (a failed request is
logged and skipped, contributing no papers; `_parse_papers_xml` never
raises). -/
def batchFetch (c : Client) (net : Request → Except String String)
    (parsePapers : String → List Paper) (we qk : String) (total batch_size start : Nat) :
    List Paper :=
  match net (build_fetch_url c we qk (min batch_size (total - start)) start) with
  | .ok resp => parsePapers resp
  | .error _ => []

/-- Method `fetch_papers`, lines 227-307, instrumented with the list of fetch
requests issued.  `parsePapers` is `_parse_papers_xml` (total: it catches all
its exceptions and returns the parsed list, lines 309-335), abstracted at the
XML boundary. -/
def fetch_papersRun (c : Client) (net : Request → Except String String)
    (parsePapers : String → List Paper) (sr : SearchResult) (batch_size : Nat) :
    PubMedAPIResponse × List Request :=
  let total := sr.pubmed_ids.length
  if total = 0 then
    ({ success := true, papers := [], error_message := none,
       total_count := 0, retrieved_count := 0 }, [])
  else if total ≤ 50 then
    let req := build_fetch_url_by_ids c sr.pubmed_ids
    match net req with
    | .error e =>
      ({ success := false, papers := [],
         error_message := some ("Failed to fetch papers: " ++ e),
         total_count := 0, retrieved_count := 0 }, [req])
    | .ok resp =>
      let papers := parsePapers resp
      ({ success := true, papers := papers, error_message := none,
         total_count := total, retrieved_count := papers.length }, [req])
  else if optStrFalsy sr.web_env || optStrFalsy sr.query_key then
    ({ success := false, papers := [],
       error_message := some "Invalid search result: missing web_env or query_key",
       total_count := 0, retrieved_count := 0 }, [])
  else
    let we := sr.web_env.getD ""
    let qk := sr.query_key.getD ""
    let starts := batchStarts total batch_size
    let papers := starts.flatMap (batchFetch c net parsePapers we qk total batch_size)
    ({ success := true, papers := papers, error_message := none,
       total_count := total, retrieved_count := papers.length },
     starts.map (fun start =>
       build_fetch_url c we qk (min batch_size (total - start)) start))

/-- Method `search_and_fetch`, lines 503-534, instrumented with the list of
requests issued: search, early successful empty return on a zero
`total_results`, truncation of the ID list to `max_results`, then
`fetch_papers` with its default batch size 100. -/
def search_and_fetchRun (c : Client) (net : Request → Except String String)
    (parseXml : String → Except String SearchDoc)
    (parsePapers : String → List Paper)
    (query : String) (max_results : Nat) : PubMedAPIResponse × List Request :=
  let sres := searchRun c net parseXml query max_results
  let sr := sres.1
  if sr.total_results = 0 then
    ({ success := true, papers := [], error_message := none,
       total_count := 0, retrieved_count := 0 }, sres.2)
  else
    let actual := min sr.pubmed_ids.length max_results
    let sr2 := if actual < sr.pubmed_ids.length then
        { sr with pubmed_ids := sr.pubmed_ids.take actual }
      else sr
    let fres := fetch_papersRun c net parsePapers sr2 100
    (fres.1, sres.2 ++ fres.2)

end PubMedClient

/-! ## Helper lemmas -/

open PubMedClient AuthorClassifier

/-- Recursion equation for `batchStarts` on a positive total. -/
theorem batchStarts_pos (n b : Nat) (hb : 0 < b) (hn : 0 < n) :
    batchStarts n b = 0 :: (batchStarts (n - b) b).map (· + b) := by
  unfold batchStarts
  have hq : (n + b - 1) / b = (n - b + b - 1) / b + 1 := by
    rcases Nat.le_total n b with h | h
    · have h1 : n - b = 0 := Nat.sub_eq_zero_of_le h
      rw [h1]
      have hz : (0 + b - 1) / b = 0 := Nat.div_eq_of_lt (by omega)
      rw [hz]
      exact Nat.div_eq_of_lt_le (by omega) (by omega)
    · have h2 : n + b - 1 = (n - b + b - 1) + b := by omega
      rw [h2, Nat.add_div_right _ hb]
  rw [hq, List.range_succ_eq_map]
  refine congrArg₂ List.cons (by simp) ?_
  rw [List.map_map, List.map_map]
  refine List.map_congr_left ?_
  intro i _
  simp [Function.comp, Nat.succ_mul]

/-- The per-batch sizes `min batch_size (total - start)` over all batch start
offsets sum to the total. -/
theorem sum_min_batchStarts (b : Nat) (hb : 0 < b) (n : Nat) :
    ((batchStarts n b).map (fun s => min b (n - s))).sum = n := by
  induction n using Nat.strong_induction_on with
  | _ n ih =>
    rcases Nat.eq_zero_or_pos n with h0 | hn
    · subst h0
      have hz : (b - 1) / b = 0 := Nat.div_eq_of_lt (by omega)
      simp [batchStarts, hz]
    · rw [batchStarts_pos n b hb hn]
      simp only [List.map_cons, List.sum_cons, List.map_map]
      have hcongr : ((batchStarts (n - b) b).map ((fun s => min b (n - s)) ∘ (· + b)))
          = (batchStarts (n - b) b).map (fun s => min b (n - b - s)) := by
        refine List.map_congr_left ?_
        intro s _
        simp only [Function.comp]
        congr 1
        omega
      rw [hcongr, ih (n - b) (Nat.sub_lt hn hb)]
      omega

/-- Length of a `flatMap` is bounded by the sum of pointwise bounds. -/
theorem length_flatMap_le {α β : Type} (l : List α) (f : α → List β) (g : α → Nat)
    (h : ∀ a ∈ l, (f a).length ≤ g a) :
    (l.flatMap f).length ≤ (l.map g).sum := by
  induction l with
  | nil => simp
  | cons a l ih =>
    simp only [List.flatMap_cons, List.length_append, List.map_cons, List.sum_cons]
    have h1 := h a (List.mem_cons_self a l)
    have h2 := ih (fun x hx => h x (List.mem_cons_of_mem a hx))
    omega

/-- Response invariant of `fetch_papers`, under the E-utilities contract that
a fetch response never contains more documents than the request asked for
(`len(ids)` documents for a by-ID fetch, `retmax` for a session fetch). -/
theorem fetch_papers_invariant (c : Client) (net : Request → Except String String)
    (pp : String → List Paper) (sr : SearchResult) (b : Nat) (hb : 0 < b)
    (Hids : ∀ ids resp, net (build_fetch_url_by_ids c ids) = .ok resp →
      (pp resp).length ≤ ids.length)
    (Hbatch : ∀ we qk m st resp, net (build_fetch_url c we qk m st) = .ok resp →
      (pp resp).length ≤ m) :
    ((fetch_papersRun c net pp sr b).1.success = false →
      (fetch_papersRun c net pp sr b).1.papers = []) ∧
    (fetch_papersRun c net pp sr b).1.retrieved_count ≤
      (fetch_papersRun c net pp sr b).1.total_count := by
  by_cases h0 : sr.pubmed_ids.length = 0
  · simp [fetch_papersRun, h0]
  · by_cases h50 : sr.pubmed_ids.length ≤ 50
    · cases hnet : net (build_fetch_url_by_ids c sr.pubmed_ids) with
      | error e => simp [fetch_papersRun, h0, h50, hnet]
      | ok resp =>
        simp [fetch_papersRun, h0, h50, hnet]
        exact Hids _ _ hnet
    · by_cases hfal : (optStrFalsy sr.web_env || optStrFalsy sr.query_key) = true
      · simp [fetch_papersRun, h0, h50, hfal]
      · simp only [fetch_papersRun, h0, h50, hfal, if_false, if_neg, Bool.false_eq_true,
          ite_false, ite_true, if_pos]
        constructor
        · intro h
          simp at h
        · have hle := length_flatMap_le (batchStarts sr.pubmed_ids.length b)
            (batchFetch c net pp (sr.web_env.getD "") (sr.query_key.getD "")
              sr.pubmed_ids.length b)
            (fun s => min b (sr.pubmed_ids.length - s)) ?_
          · calc (((batchStarts sr.pubmed_ids.length b).flatMap
                (batchFetch c net pp (sr.web_env.getD "") (sr.query_key.getD "")
                  sr.pubmed_ids.length b)).length)
                ≤ ((batchStarts sr.pubmed_ids.length b).map
                    (fun s => min b (sr.pubmed_ids.length - s))).sum := hle
              _ = sr.pubmed_ids.length := sum_min_batchStarts b hb _
          · intro s _
            unfold batchFetch
            cases hnet : net (build_fetch_url c (sr.web_env.getD "")
                (sr.query_key.getD "") (min b (sr.pubmed_ids.length - s)) s) with
            | error e => simp
            | ok resp => exact Hbatch _ _ _ _ _ hnet

/-- Authors with an absent affiliation are returned unchanged by
`classify_author` (lines 74-75). -/
theorem classify_author_none (a : Author) (h : a.affiliation = none) :
    classify_author a = a := by
  simp [classify_author, h]

/-- Authors with an empty-string affiliation are returned unchanged by
`classify_author` (Python falsiness of `""` in `if not author.affiliation`). -/
theorem classify_author_empty (a : Author) (h : a.affiliation = some "") :
    classify_author a = a := by
  simp [classify_author, h]

/-- A substring of the empty string is empty. -/
theorem containsSub_nil {nd : List Char} (h : containsSub [] nd = true) : nd = [] := by
  simp [containsSub, List.range] at h
  cases nd with
  | nil => rfl
  | cons c cs => simp [List.isPrefixOf] at h

/-- Membership of a matched known company (title-cased) in the extraction
result: the known-company scan appends it, and the heuristic fallback can
only append further elements. -/
theorem mem_extract_company_affiliations (aff : List Char) (company : String)
    (hc : company ∈ known_companies)
    (hsub : containsSub aff (pythonLower company).data = true) :
    pythonTitle company ∈ extract_company_affiliations aff := by
  have hmem : pythonTitle company ∈
      (known_companies.filter (fun c => containsSub aff (pythonLower c).data)).map
        pythonTitle :=
    List.mem_map_of_mem _ (List.mem_filter.mpr ⟨hc, hsub⟩)
  unfold extract_company_affiliations
  by_cases h1 : has_pharma_biotech_keywords aff
  · rw [if_pos h1]
    cases h2 : extract_company_name aff with
    | none => exact hmem
    | some nameChars =>
      simp only []
      by_cases h3 : (((known_companies.filter
            (fun c => containsSub aff (pythonLower c).data)).map pythonTitle).map
              pythonLower).contains (⟨nameChars⟩ : String)
      · rw [if_pos h3]; exact hmem
      · rw [if_neg h3]; exact List.mem_append_left _ hmem
  · rw [if_neg h1]; exact hmem

/-- Every Gregorian month has at least 28 days. -/
theorem daysInMonth_ge (y m : Int) : 28 ≤ daysInMonth y m := by
  unfold daysInMonth
  split
  · split <;> norm_num
  · split <;> norm_num

/-! ## Claims -/

/-- C1 counterexample: a search result with zero identifiers has at most 50
identifiers, yet `fetch_papers` issues no fetch request at all (the log is
empty, in particular not the one-element list containing the explicit-ID
request), contradicting the claim that every result with at most 50
identifiers is fetched in a single request built from the ID list. -/
theorem C1_counterexample :
    (fetch_papersRun {} (fun _ => Except.ok "") (fun _ => [])
        { query := "q", total_results := 0, pubmed_ids := [] } 100).2 = [] ∧
    (fetch_papersRun {} (fun _ => Except.ok "") (fun _ => [])
        { query := "q", total_results := 0, pubmed_ids := [] } 100).2 ≠
      [build_fetch_url_by_ids {} []] := by
  constructor
  · rfl
  · decide

/-- C1 (amended): for every search result with between 1 and 50 identifiers,
`fetch_papers` fetches all documents in a single request built from the
explicit ID list (bypassing the session mechanism), and for every search
result with more than 50 identifiers whose session handle pair is absent,
the operation fails with the missing-session-handle error — `success = false`,
an explanatory message, an empty paper list — without issuing any fetch
request.  (The original claim also covered zero identifiers, where the code
returns an empty success response without issuing any request.) -/
theorem C1_fetch_strategy_boundary (c : Client) (net : Request → Except String String)
    (pp : String → List Paper) (sr : SearchResult) (b : Nat) :
    (1 ≤ sr.pubmed_ids.length → sr.pubmed_ids.length ≤ 50 →
      (fetch_papersRun c net pp sr b).2 = [build_fetch_url_by_ids c sr.pubmed_ids] ∧
      ∀ resp, net (build_fetch_url_by_ids c sr.pubmed_ids) = .ok resp →
        (fetch_papersRun c net pp sr b).1 =
          { success := true, papers := pp resp, error_message := none,
            total_count := sr.pubmed_ids.length,
            retrieved_count := (pp resp).length }) ∧
    (50 < sr.pubmed_ids.length → sr.web_env = none → sr.query_key = none →
      (fetch_papersRun c net pp sr b).1 =
        { success := false, papers := [],
          error_message := some "Invalid search result: missing web_env or query_key",
          total_count := 0, retrieved_count := 0 } ∧
      (fetch_papersRun c net pp sr b).2 = []) := by
  constructor
  · intro h1 h2
    have h0 : ¬ sr.pubmed_ids.length = 0 := by omega
    constructor
    · cases hnet : net (build_fetch_url_by_ids c sr.pubmed_ids) <;>
        simp [fetch_papersRun, h0, h2, hnet]
    · intro resp hnet
      simp [fetch_papersRun, h0, h2, hnet]
  · intro h1 hwe hqk
    have h0 : ¬ sr.pubmed_ids.length = 0 := by omega
    have h50 : ¬ sr.pubmed_ids.length ≤ 50 := by omega
    have hfal : (optStrFalsy sr.web_env || optStrFalsy sr.query_key) = true := by
      simp [optStrFalsy, hwe]
    simp [fetch_papersRun, h0, h50, hfal]

/-- C1 witness: a one-identifier result is fetched by the single explicit-ID
request; a 51-identifier result without session handles fails with the
missing-session-handle response. -/
theorem C1_witness :
    (fetch_papersRun {} (fun _ => Except.ok "r") (fun _ => [])
        { query := "q", total_results := 1, pubmed_ids := ["7"] } 100).2 =
      [build_fetch_url_by_ids {} ["7"]] ∧
    (fetch_papersRun {} (fun _ => Except.ok "r") (fun _ => [])
        { query := "q", total_results := 51,
          pubmed_ids := List.replicate 51 "7" } 100).1 =
      { success := false, papers := [],
        error_message := some "Invalid search result: missing web_env or query_key",
        total_count := 0, retrieved_count := 0 } :=
  ⟨((C1_fetch_strategy_boundary {} (fun _ => Except.ok "r") (fun _ => [])
      { query := "q", total_results := 1, pubmed_ids := ["7"] } 100).1
      (by simp) (by simp)).1,
   ((C1_fetch_strategy_boundary {} (fun _ => Except.ok "r") (fun _ => [])
      { query := "q", total_results := 51,
        pubmed_ids := List.replicate 51 "7" } 100).2
      (by simp) rfl rfl).1⟩

/-- C2: for every search result with more than 50 identifiers and a valid
(non-falsy) session handle pair, `fetch_papers` issues one fetch request per
batch, at offsets `0, b, 2b, ...` with per-request size
`min b (n - offset)`; a failed batch contributes no papers while all other
batches are aggregated in batch order, and the response has
`success = true`. -/
theorem C2_batched_pagination (c : Client) (net : Request → Except String String)
    (pp : String → List Paper) (sr : SearchResult) (b : Nat) (we qk : String)
    (h50 : 50 < sr.pubmed_ids.length)
    (hwe : sr.web_env = some we) (hwe2 : we ≠ "")
    (hqk : sr.query_key = some qk) (hqk2 : qk ≠ "") :
    (fetch_papersRun c net pp sr b).2 =
      (batchStarts sr.pubmed_ids.length b).map (fun start =>
        build_fetch_url c we qk (min b (sr.pubmed_ids.length - start)) start) ∧
    (fetch_papersRun c net pp sr b).1.success = true ∧
    (fetch_papersRun c net pp sr b).1.papers =
      (batchStarts sr.pubmed_ids.length b).flatMap (fun start =>
        match net (build_fetch_url c we qk (min b (sr.pubmed_ids.length - start)) start) with
        | .ok resp => pp resp
        | .error _ => []) := by
  have h0 : ¬ sr.pubmed_ids.length = 0 := by omega
  have h50' : ¬ sr.pubmed_ids.length ≤ 50 := by omega
  have hwf : optStrFalsy (some we) = false := by simp [optStrFalsy, hwe2]
  have hqf : optStrFalsy (some qk) = false := by simp [optStrFalsy, hqk2]
  have hbf : batchFetch c net pp we qk sr.pubmed_ids.length b = fun start =>
      match net (build_fetch_url c we qk (min b (sr.pubmed_ids.length - start)) start) with
      | .ok resp => pp resp
      | .error _ => [] := by
    funext start
    rfl
  simp [fetch_papersRun, h0, h50', hwe, hqk, hwf, hqf, hbf]

set_option maxRecDepth 100000 in
/-- C2 witness: 250 identifiers with batch size 100 yield exactly three fetch
requests of sizes 100, 100 and 50; with the second batch failing, the result
aggregates only the papers of batches 1 and 3 (here one paper per succeeding
batch, carrying the batch payload as its ID) and still reports success. -/
theorem C2_witness :
    (fetch_papersRun {}
        (fun r => if r = build_fetch_url {} "W" "K" 100 100 then Except.error "boom"
          else Except.ok (if r = build_fetch_url {} "W" "K" 100 0 then "A" else "C"))
        (fun s => [⟨s, "", none, [], ⟨"", none, none, none, none⟩, none, none, none⟩])
        { query := "q", total_results := 250, pubmed_ids := List.replicate 250 "1",
          web_env := some "W", query_key := some "K" } 100).2 =
      [build_fetch_url {} "W" "K" 100 0, build_fetch_url {} "W" "K" 100 100,
       build_fetch_url {} "W" "K" 50 200] ∧
    (fetch_papersRun {}
        (fun r => if r = build_fetch_url {} "W" "K" 100 100 then Except.error "boom"
          else Except.ok (if r = build_fetch_url {} "W" "K" 100 0 then "A" else "C"))
        (fun s => [⟨s, "", none, [], ⟨"", none, none, none, none⟩, none, none, none⟩])
        { query := "q", total_results := 250, pubmed_ids := List.replicate 250 "1",
          web_env := some "W", query_key := some "K" } 100).1.success = true ∧
    (fetch_papersRun {}
        (fun r => if r = build_fetch_url {} "W" "K" 100 100 then Except.error "boom"
          else Except.ok (if r = build_fetch_url {} "W" "K" 100 0 then "A" else "C"))
        (fun s => [⟨s, "", none, [], ⟨"", none, none, none, none⟩, none, none, none⟩])
        { query := "q", total_results := 250, pubmed_ids := List.replicate 250 "1",
          web_env := some "W", query_key := some "K" } 100).1.papers =
      [⟨"A", "", none, [], ⟨"", none, none, none, none⟩, none, none, none⟩,
       ⟨"C", "", none, [], ⟨"", none, none, none, none⟩, none, none, none⟩] := by
  have h := C2_batched_pagination {}
    (fun r => if r = build_fetch_url {} "W" "K" 100 100 then Except.error "boom"
      else Except.ok (if r = build_fetch_url {} "W" "K" 100 0 then "A" else "C"))
    (fun s => [⟨s, "", none, [], ⟨"", none, none, none, none⟩, none, none, none⟩])
    { query := "q", total_results := 250, pubmed_ids := List.replicate 250 "1",
      web_env := some "W", query_key := some "K" } 100 "W" "K"
    (by simp) rfl (by decide) rfl (by decide)
  refine ⟨?_, h.2.1, ?_⟩
  · rw [h.1]
    decide
  · rw [h.2.2]
    decide

/-- C3: every response returned by `fetch_papers` (any batch size ≥ 1) or
`search_and_fetch` satisfies the `RetrievalResponse` invariant:
`success = false` implies the paper list is empty, and
`retrieved_count ≤ total_count`.  The hypotheses `Hids`/`Hbatch` state the
E-utilities contract that a successful fetch response parses to no more
documents than the request asked for (the ID-list length, resp. `retmax`). -/
theorem C3_response_invariant (c : Client) (net : Request → Except String String)
    (parseXml : String → Except String SearchDoc) (pp : String → List Paper)
    (sr : SearchResult) (b : Nat) (q : String) (mr : Nat) (hb : 0 < b)
    (Hids : ∀ ids resp, net (build_fetch_url_by_ids c ids) = .ok resp →
      (pp resp).length ≤ ids.length)
    (Hbatch : ∀ we qk m st resp, net (build_fetch_url c we qk m st) = .ok resp →
      (pp resp).length ≤ m) :
    (((fetch_papersRun c net pp sr b).1.success = false →
        (fetch_papersRun c net pp sr b).1.papers = []) ∧
      (fetch_papersRun c net pp sr b).1.retrieved_count ≤
        (fetch_papersRun c net pp sr b).1.total_count) ∧
    (((search_and_fetchRun c net parseXml pp q mr).1.success = false →
        (search_and_fetchRun c net parseXml pp q mr).1.papers = []) ∧
      (search_and_fetchRun c net parseXml pp q mr).1.retrieved_count ≤
        (search_and_fetchRun c net parseXml pp q mr).1.total_count) := by
  refine ⟨fetch_papers_invariant c net pp sr b hb Hids Hbatch, ?_⟩
  unfold search_and_fetchRun
  by_cases hz : (searchRun c net parseXml q mr).1.total_results = 0
  · simp [hz]
  · simp only [hz, if_neg, ite_false]
    exact fetch_papers_invariant c net pp _ 100 (by norm_num) Hids Hbatch

/-- C3 witness: the invariant instantiated at a concrete client, failing
network, trivial parsers, a two-identifier search result and batch size 1. -/
theorem C3_witness :
    (((fetch_papersRun {} (fun _ => Except.error "down") (fun _ => [])
        { query := "q", total_results := 2, pubmed_ids := ["1", "2"] } 1).1.success = false →
      (fetch_papersRun {} (fun _ => Except.error "down") (fun _ => [])
        { query := "q", total_results := 2, pubmed_ids := ["1", "2"] } 1).1.papers = []) ∧
     (fetch_papersRun {} (fun _ => Except.error "down") (fun _ => [])
        { query := "q", total_results := 2, pubmed_ids := ["1", "2"] } 1).1.retrieved_count ≤
       (fetch_papersRun {} (fun _ => Except.error "down") (fun _ => [])
        { query := "q", total_results := 2, pubmed_ids := ["1", "2"] } 1).1.total_count) ∧
    (((search_and_fetchRun {} (fun _ => Except.error "down")
        (fun _ => Except.error "parse") (fun _ => []) "q" 7).1.success = false →
      (search_and_fetchRun {} (fun _ => Except.error "down")
        (fun _ => Except.error "parse") (fun _ => []) "q" 7).1.papers = []) ∧
     (search_and_fetchRun {} (fun _ => Except.error "down")
        (fun _ => Except.error "parse") (fun _ => []) "q" 7).1.retrieved_count ≤
       (search_and_fetchRun {} (fun _ => Except.error "down")
        (fun _ => Except.error "parse") (fun _ => []) "q" 7).1.total_count) :=
  C3_response_invariant {} (fun _ => Except.error "down") (fun _ => Except.error "parse")
    (fun _ => []) { query := "q", total_results := 2, pubmed_ids := ["1", "2"] } 1 "q" 7
    (by norm_num)
    (by intro ids resp h; simp at h)
    (by intro we qk m st resp h; simp at h)

/-- C7: `search` is fail-soft — if the search request fails, if parsing its
response fails, or if the `Count` text fails integer conversion, `search`
returns (rather than raising) the `SearchResult` with `total_results = 0`,
an empty identifier list and no session handle pair.  (That `searchRun` is a
total function embodies that no failure propagates.) -/
theorem C7_search_fail_soft (c : Client) (net : Request → Except String String)
    (parseXml : String → Except String SearchDoc) (q : String) (mr : Nat) :
    (∀ e, net (build_search_url c q mr 0) = .error e →
      searchRun c net parseXml q mr =
        ({ query := q, total_results := 0, pubmed_ids := [],
           web_env := none, query_key := none }, [build_search_url c q mr 0])) ∧
    (∀ resp e, net (build_search_url c q mr 0) = .ok resp →
      parseXml resp = .error e →
      searchRun c net parseXml q mr =
        ({ query := q, total_results := 0, pubmed_ids := [],
           web_env := none, query_key := none }, [build_search_url c q mr 0])) ∧
    (∀ resp doc t, net (build_search_url c q mr 0) = .ok resp →
      parseXml resp = .ok doc → doc.count = some t → pyInt t = none →
      searchRun c net parseXml q mr =
        ({ query := q, total_results := 0, pubmed_ids := [],
           web_env := none, query_key := none }, [build_search_url c q mr 0])) := by
  refine ⟨?_, ?_, ?_⟩
  · intro e h
    simp [searchRun, h]
  · intro resp e h1 h2
    simp [searchRun, h1, h2]
  · intro resp doc t h1 h2 h3 h4
    simp [searchRun, h1, h2, h3, h4]

/-- C7 witness: a failing request produces the empty zero-count result. -/
theorem C7_witness :
    searchRun {} (fun _ => Except.error "connection refused")
        (fun _ => Except.error "parse") "cancer" 10 =
      ({ query := "cancer", total_results := 0, pubmed_ids := [],
         web_env := none, query_key := none },
       [build_search_url {} "cancer" 10 0]) :=
  (C7_search_fail_soft {} (fun _ => Except.error "connection refused")
    (fun _ => Except.error "parse") "cancer" 10).1 "connection refused" rfl

/-- C8: the retry contract of `_make_request` at its default retry limit 3:
a success on attempt `j` returns that response immediately after `j + 1`
attempts with backoff sleeps `2^0 .. 2^(j-1)` between attempts, and failure
of all three attempts raises an error carrying the attempt count and the
last cause, after sleeps `2^0` and `2^1`. -/
theorem C8_retry_contract (attempt : Nat → Except String String) :
    (∀ d, attempt 0 = .ok d → make_request attempt 3 = (.ok d, [], 1)) ∧
    (∀ e0 d, attempt 0 = .error e0 → attempt 1 = .ok d →
      make_request attempt 3 = (.ok d, [1], 2)) ∧
    (∀ e0 e1 d, attempt 0 = .error e0 → attempt 1 = .error e1 → attempt 2 = .ok d →
      make_request attempt 3 = (.ok d, [1, 2], 3)) ∧
    (∀ e0 e1 e2, attempt 0 = .error e0 → attempt 1 = .error e1 →
      attempt 2 = .error e2 →
      make_request attempt 3 =
        (.error ("Request failed after 3 attempts: " ++ e2), [1, 2], 3)) := by
  have hr : List.range 3 = [0, 1, 2] := rfl
  refine ⟨?_, ?_, ?_, ?_⟩
  · intro d h
    simp [make_request, hr, makeRequestGo, h]
  · intro e0 d h0 h1
    simp [make_request, hr, makeRequestGo, h0, h1]
  · intro e0 e1 d h0 h1 h2
    simp [make_request, hr, makeRequestGo, h0, h1, h2]
  · intro e0 e1 e2 h0 h1 h2
    simp [make_request, hr, makeRequestGo, h0, h1, h2]
    congr 1

/-- C8 witness: one transient failure followed by a success returns the
success after two attempts with a single backoff sleep of `2^0 = 1`. -/
theorem C8_witness :
    make_request (fun n => if n = 0 then Except.error "timeout" else Except.ok "data") 3 =
      (Except.ok "data", [1], 2) :=
  (C8_retry_contract
    (fun n => if n = 0 then Except.error "timeout" else Except.ok "data")).2.1
    "timeout" "data" rfl rfl

/-- C4 counterexample: the affiliation "Pfizer Inc, Harvard University"
contains the known company name "pfizer", yet after `classify_author` the
company list does not contain "Pfizer" (title-cased): because the text also
contains the academic keyword "university", the author is classified
academic and company extraction is never performed, leaving the default
empty list. -/
theorem C4_counterexample :
    "pfizer" ∈ known_companies ∧
    containsSub (pythonLower "Pfizer Inc, Harvard University").data
      (pythonLower "pfizer").data = true ∧
    ¬ pythonTitle "pfizer" ∈
      (classify_author ⟨none, "x", none, some "Pfizer Inc, Harvard University",
        none, false, false, []⟩).company_affiliations := by
  decide

/-- C4 (amended): for every author whose affiliation contains (case
insensitively) a known company name AND whose affiliation fails the academic
test (so that the author is classified non-academic), the company list after
`classify_author` contains that name, title-cased.  (The original claim
omitted the non-academic condition; company extraction only runs for
non-academic affiliations.) -/
theorem C4_known_company_extraction (a : Author) (s company : String)
    (ha : a.affiliation = some s)
    (hc : company ∈ known_companies)
    (hsub : containsSub (pythonLower s).data (pythonLower company).data = true)
    (hacad : is_academic_affiliation (pythonLower s).data = false) :
    pythonTitle company ∈ (classify_author a).company_affiliations := by
  have hcne : company ≠ "" := by
    have hall : ∀ x ∈ known_companies, x ≠ "" := by decide
    exact hall company hc
  have hs : s ≠ "" := by
    intro h
    apply hcne
    subst h
    simp only [pythonLower] at hsub
    have h2 := containsSub_nil hsub
    cases company with
    | mk l =>
      simp only [pythonLower] at h2
      simp only [List.map_eq_nil_iff] at h2
      simp [h2]
  simp only [classify_author, ha, hs, if_neg, ite_false, hacad, Bool.false_eq_true]
  exact mem_extract_company_affiliations (pythonLower s).data company hc hsub

/-- C4 witness: an author affiliated with "Pfizer Inc, New York" (a
non-academic affiliation containing the known company "pfizer") gets
"Pfizer" in the company list. -/
theorem C4_witness :
    pythonTitle "pfizer" ∈
      (classify_author ⟨none, "Doe", none, some "Pfizer Inc, New York", none,
        false, false, []⟩).company_affiliations :=
  C4_known_company_extraction
    ⟨none, "Doe", none, some "Pfizer Inc, New York", none, false, false, []⟩
    "Pfizer Inc, New York" "pfizer" rfl (by decide) (by decide) (by decide)

/-- C5 counterexample: classification is not a pure function of the
affiliation text alone — two authors with the identical (academic)
affiliation but different incoming `company_affiliations` keep their
different company lists, because `classify_author` only overwrites the
company list when the author is classified non-academic. -/
theorem C5_counterexample :
    (⟨none, "a", none, some "university x", none, false, false, ["Hack"]⟩ : Author).affiliation =
      (⟨none, "b", none, some "university x", none, false, false, []⟩ : Author).affiliation ∧
    (classify_author
        ⟨none, "a", none, some "university x", none, false, false, ["Hack"]⟩).company_affiliations ≠
      (classify_author
        ⟨none, "b", none, some "university x", none, false, false, []⟩).company_affiliations := by
  constructor
  · rfl
  · decide

/-- C5 (amended): `classify_author` is idempotent — applying it twice gives
the same author record (hence the same flag and company list) as applying it
once; and for authors whose classification fields hold the defaults
(`is_non_academic = false`, empty company list, as produced by the parser),
the resulting classification is a pure function of the affiliation text
alone.  (The original claim asserted purity for all authors; the code leaves
stale classification fields untouched on academic or absent affiliations.) -/
theorem C5_classification_idempotent :
    (∀ a : Author, classify_author (classify_author a) = classify_author a) ∧
    (∀ a b : Author, a.is_non_academic = false → a.company_affiliations = [] →
      b.is_non_academic = false → b.company_affiliations = [] →
      a.affiliation = b.affiliation →
      (classify_author a).is_non_academic = (classify_author b).is_non_academic ∧
      (classify_author a).company_affiliations =
        (classify_author b).company_affiliations) := by
  constructor
  · intro a
    cases ha : a.affiliation with
    | none =>
      have h := classify_author_none a ha
      rw [h, h]
    | some s =>
      by_cases hs : s = ""
      · subst hs
        have h := classify_author_empty a ha
        rw [h, h]
      · by_cases hacad : is_academic_affiliation (pythonLower s).data
        · simp [classify_author, ha, hs, hacad]
        · simp [classify_author, ha, hs, hacad]
  · intro a b h1 h2 h3 h4 h5
    cases ha : a.affiliation with
    | none =>
      have hb : b.affiliation = none := by rw [← h5, ha]
      rw [classify_author_none a ha, classify_author_none b hb, h1, h2, h3, h4]
      exact ⟨rfl, rfl⟩
    | some s =>
      have hb : b.affiliation = some s := by rw [← h5, ha]
      by_cases hs : s = ""
      · subst hs
        rw [classify_author_empty a ha, classify_author_empty b hb, h1, h2, h3, h4]
        exact ⟨rfl, rfl⟩
      · by_cases hacad : is_academic_affiliation (pythonLower s).data
        · simp [classify_author, ha, hb, hs, hacad, h2, h4]
        · simp [classify_author, ha, hb, hs, hacad]

/-- C5 witness: idempotence at a concrete non-academic author, and agreement
of the classification of two default-classified authors sharing an
affiliation. -/
theorem C5_witness :
    classify_author (classify_author
        ⟨none, "Doe", none, some "Novartis", none, false, false, []⟩) =
      classify_author ⟨none, "Doe", none, some "Novartis", none, false, false, []⟩ ∧
    ((classify_author ⟨none, "x", none, some "Novartis", none, false, false, []⟩).is_non_academic =
      (classify_author ⟨none, "y", none, some "Novartis", none, false, false, []⟩).is_non_academic ∧
     (classify_author ⟨none, "x", none, some "Novartis", none, false, false, []⟩).company_affiliations =
      (classify_author ⟨none, "y", none, some "Novartis", none, false, false, []⟩).company_affiliations) :=
  ⟨C5_classification_idempotent.1
      ⟨none, "Doe", none, some "Novartis", none, false, false, []⟩,
   C5_classification_idempotent.2
      ⟨none, "x", none, some "Novartis", none, false, false, []⟩
      ⟨none, "y", none, some "Novartis", none, false, false, []⟩
      rfl rfl rfl rfl rfl⟩

/-- C6: for every author with an absent affiliation whose classification
fields hold the defaults, `classify_author` returns the author unchanged —
in particular `is_non_academic = false` (treated as academic) and an empty
company list — and (being a total function) never fails. -/
theorem C6_default_academic_policy (a : Author) (h : a.affiliation = none)
    (h2 : a.is_non_academic = false) (h3 : a.company_affiliations = []) :
    classify_author a = a ∧
    (classify_author a).is_non_academic = false ∧
    (classify_author a).company_affiliations = [] := by
  have hu := classify_author_none a h
  refine ⟨hu, ?_, ?_⟩
  · rw [hu]; exact h2
  · rw [hu]; exact h3

/-- C6 witness: a concrete author without affiliation keeps the default
classification. -/
theorem C6_witness :
    classify_author ⟨none, "Doe", none, none, none, false, false, []⟩ =
      ⟨none, "Doe", none, none, none, false, false, []⟩ ∧
    (classify_author ⟨none, "Doe", none, none, none, false, false, []⟩).is_non_academic = false ∧
    (classify_author ⟨none, "Doe", none, none, none, false, false, []⟩).company_affiliations = [] :=
  C6_default_academic_policy ⟨none, "Doe", none, none, none, false, false, []⟩
    rfl rfl rfl

/-- C10: `classify_author` treats an empty-string affiliation exactly like an
absent one — the Python falsiness test `if not author.affiliation` returns
the author unchanged before the academic-keyword test is ever consulted, so
a default-classified author with affiliation `""` keeps
`is_non_academic = false` and the empty company list. -/
theorem C10_empty_affiliation (a : Author) (h : a.affiliation = some "")
    (h2 : a.is_non_academic = false) (h3 : a.company_affiliations = []) :
    classify_author a = a ∧
    (classify_author a).is_non_academic = false ∧
    (classify_author a).company_affiliations = [] := by
  have hu := classify_author_empty a h
  refine ⟨hu, ?_, ?_⟩
  · rw [hu]; exact h2
  · rw [hu]; exact h3

/-- C10 witness: a concrete author with the empty-string affiliation is
returned unchanged with the default classification. -/
theorem C10_witness :
    classify_author ⟨none, "Doe", none, some "", none, false, false, []⟩ =
      ⟨none, "Doe", none, some "", none, false, false, []⟩ ∧
    (classify_author ⟨none, "Doe", none, some "", none, false, false, []⟩).is_non_academic = false ∧
    (classify_author ⟨none, "Doe", none, some "", none, false, false, []⟩).company_affiliations = [] :=
  C10_empty_affiliation ⟨none, "Doe", none, some "", none, false, false, []⟩
    rfl rfl rfl

/-- C9 counterexample: a date element whose `Year` child holds the text "0"
contains a year (and `int("0")` parses it), month and day are missing, yet
the parsed publication date is `none` rather than a well-defined date — the
`if year:` falsiness test rejects year 0 (as would the `date(...)`
range check for any year outside 1..9999). -/
theorem C9_counterexample :
    pyInt "0" = some 0 ∧
    parse_publication_date (some { year := some "0", month := none, day := none })
      none none = none := by
  constructor
  · rfl
  · rfl

/-- C9 (amended): for every parsed record whose selected date element
contains a year parsing to an integer in the valid range 1..9999, a missing
month or day each defaults to 1 (also when the other one is present with an
in-range value), producing a well-defined date; for every record whose date
element lacks a year, the parsed publication date is `none` rather than any
default.  (The original claim asserted a well-defined date for every year;
years outside 1..9999 yield `none`.) -/
theorem C9_date_defaulting (completed created pubdate : Option DateParts)
    (de : DateParts) (hsel : firstDateElem completed created pubdate = some de) :
    (∀ yt y, de.year = some yt → pyInt yt = some y → 1 ≤ y → y ≤ 9999 →
      de.month = none → de.day = none →
      parse_publication_date completed created pubdate = some ⟨y, 1, 1⟩) ∧
    (∀ yt y mt m, de.year = some yt → pyInt yt = some y → 1 ≤ y → y ≤ 9999 →
      de.month = some mt → pyInt mt = some m → 1 ≤ m → m ≤ 12 → de.day = none →
      parse_publication_date completed created pubdate = some ⟨y, m, 1⟩) ∧
    (∀ yt y dt d, de.year = some yt → pyInt yt = some y → 1 ≤ y → y ≤ 9999 →
      de.month = none → de.day = some dt → pyInt dt = some d → 1 ≤ d → d ≤ 31 →
      parse_publication_date completed created pubdate = some ⟨y, 1, d⟩) ∧
    (de.year = none → parse_publication_date completed created pubdate = none) := by
  refine ⟨?_, ?_, ?_, ?_⟩
  · intro yt y hy hpy h1 h2 hm hd
    have hy0 : y ≠ 0 := by omega
    have hmk : mkDate y 1 1 = some ⟨y, 1, 1⟩ := by
      unfold mkDate
      rw [if_pos]
      refine ⟨h1, h2, by norm_num, by norm_num, by norm_num, ?_⟩
      have := daysInMonth_ge y 1
      omega
    simp [parse_publication_date, hsel, hy, hpy, hm, hd, hy0, hmk]
  · intro yt y mt m hy hpy h1 h2 hm hpm hm1 hm2 hd
    have hy0 : y ≠ 0 := by omega
    have hmk : mkDate y m 1 = some ⟨y, m, 1⟩ := by
      unfold mkDate
      rw [if_pos]
      refine ⟨h1, h2, hm1, hm2, by norm_num, ?_⟩
      have := daysInMonth_ge y m
      omega
    simp [parse_publication_date, hsel, hy, hpy, hm, hpm, hd, hy0, hmk]
  · intro yt y dt d hy hpy h1 h2 hm hd hpd hd1 hd2
    have hy0 : y ≠ 0 := by omega
    have hmk : mkDate y 1 d = some ⟨y, 1, d⟩ := by
      unfold mkDate
      rw [if_pos]
      refine ⟨h1, h2, by norm_num, by norm_num, hd1, ?_⟩
      have h31 : daysInMonth y 1 = 31 := by norm_num [daysInMonth]
      omega
    simp [parse_publication_date, hsel, hy, hpy, hm, hd, hpd, hy0, hmk]
  · intro hy
    simp only [parse_publication_date, hsel, hy]
    split <;> simp_all

/-- C9 witness: year 2020 with missing month and day yields January 1, 2020;
year 1998 with month 7 and missing day yields July 1, 1998; a date element
without a year yields no date even when month and day are present. -/
theorem C9_witness :
    parse_publication_date (some { year := some "2020", month := none, day := none })
      none none = some ⟨2020, 1, 1⟩ ∧
    parse_publication_date (some { year := some "1998", month := some "7", day := none })
      none none = some ⟨1998, 7, 1⟩ ∧
    parse_publication_date (some { year := none, month := some "7", day := some "15" })
      none none = none :=
  ⟨(C9_date_defaulting (some { year := some "2020", month := none, day := none })
      none none { year := some "2020", month := none, day := none } rfl).1
      "2020" 2020 rfl (by decide) (by norm_num) (by norm_num) rfl rfl,
   (C9_date_defaulting (some { year := some "1998", month := some "7", day := none })
      none none { year := some "1998", month := some "7", day := none } rfl).2.1
      "1998" 1998 "7" 7 rfl (by decide) (by norm_num) (by norm_num) rfl (by decide)
      (by norm_num) (by norm_num) rfl,
   (C9_date_defaulting (some { year := none, month := some "7", day := some "15" })
      none none { year := none, month := some "7", day := some "15" } rfl).2.2.2 rfl⟩
